import Mathlib

/-!
# Verification of the spend-what-server access-control and consistency core

This file shallowly embeds the service layer of the spend-what-server
repository (FastAPI + beanie/MongoDB) and proves properties of it.

The document store is modelled as lists of records (one list per
collection, in insertion order); `find_one` is first-match lookup,
`find(...).delete(...)` is a filter, and the `mongo_transaction`
context manager is modelled by operations of type `Except Err DBState`:
an `.error` result corresponds to an aborted transaction, which leaves
every collection as it was.

Authenticated callers are modelled by a user id (`Nat`): every route
first rejects `user is None` with 401, and every claim below concerns
an authenticated caller, so the `None` branch is not embedded.
Timestamps are integers (an abstract clock); `datetime.now()` becomes
an explicit `now` parameter.  Generated ObjectIds become explicit
fresh-id parameters.
-/

namespace SpendWhat

/-- `BillAccessRole` from `src/db/models.py`. -/
inductive Role where
  | owner
  | member
  | observer
deriving DecidableEq, Repr

/-- A runtime Python value as it occurs in a `Bill.members` roster entry or
in the `paid_by` position: either a plain string, or a beanie `Link` to a
`BillMember` document (carrying the referenced id).  Python `==` between a
`str` and a `Link` object is `False`; between two strings it is string
equality; between two links it is reference equality on the target.
`DecidableEq` on this type gives exactly that semantics, so Python's
`x in xs` is `List.contains`. -/
inductive PyVal where
  | vStr (s : String)
  | vLink (id : Nat)
deriving DecidableEq, Repr

/-- `Bill` document (`src/db/models.py`): title, roster, creator, creation
time and last-item-update time.  The roster entries appended by
`add_bill_member` are `BillMember.link_from_id(...)` links, hence
`List PyVal`. -/
structure BillRec where
  id : Nat
  title : String
  members : List PyVal
  createdBy : Nat
  createdTime : Int
  itemUpdatedTime : Int
deriving DecidableEq, Repr

/-- `BillAccess` document: a (bill, user, role) triple. -/
structure AccessRec where
  billId : Nat
  userId : Nat
  role : Role
deriving DecidableEq, Repr

/-- `BillMember` document: display name and optional linked user. -/
structure MemberRec where
  id : Nat
  name : String
  linkedUser : Option Nat
deriving DecidableEq, Repr

/-- `BillItem` document.  `amount` is kept as the exact decimal string
(`PydanticDecimal128` never goes through floating point).  `paidBy` holds
whatever value the service stored there (`create_bill_item` stores the
request's `paid_by` string; the model annotation declares a member link),
hence `PyVal`. -/
structure ItemRec where
  id : Nat
  billId : Nat
  type : String
  typeIcon : String
  description : String
  amount : String
  currency : String
  createdBy : Nat
  paidBy : PyVal
  createdTime : Int
  occurredTime : Int
deriving DecidableEq, Repr

/-- A share-token record as the service layer (`src/service/bill/share.py`)
constructs and reads it: token string, bill, granted role, issuer,
creation time, optional expiry, optional remaining-use counter, optional
bound member.  NOTE: the persisted model `BillShareToken` in
`src/db/models.py` declares only the first five fields; the mismatch is
the subject of the `billShareTokenModelFields` development below. -/
structure ShareTokenRec where
  token : String
  billId : Nat
  accessRole : Role
  createdBy : Nat
  createdTime : Int
  expiresAt : Option Int
  remainingUses : Option Int
  billMember : Option Nat
deriving DecidableEq, Repr

/-- The document store: one list per collection, in insertion order. -/
structure DBState where
  bills : List BillRec
  accesses : List AccessRec
  billMembers : List MemberRec
  items : List ItemRec
  shareTokens : List ShareTokenRec
deriving DecidableEq, Repr

/-- HTTP-level failure taxonomy of the service (`HTTPException` status
codes 401/403/404/400). -/
inductive Err where
  | unauthorized
  | forbidden
  | notFound
  | badRequest
deriving DecidableEq, Repr

/-- `Bill.get(bill_id)`. -/
def findBill (st : DBState) (billId : Nat) : Option BillRec :=
  st.bills.find? (fun b => b.id == billId)

/-- `BillAccess.find_one({bill, user, role in allowed_roles})`. -/
def findAccess (st : DBState) (billId userId : Nat) (roles : List Role) :
    Option AccessRec :=
  st.accesses.find? (fun a =>
    a.billId == billId && a.userId == userId && roles.contains a.role)

/-- `check_bill_permission` (`src/service/bill/bill.py`): load the bill
(404 if absent), then require an access row for (bill, user) whose role is
among `roles` (403 if none); return the loaded bill. -/
def checkBillPermission (st : DBState) (billId userId : Nat)
    (roles : List Role) : Except Err BillRec :=
  match findBill st billId with
  | none => .error .notFound
  | some bill =>
    match findAccess st billId userId roles with
    | none => .error .forbidden
    | some _ => .ok bill

/-- `create_bill` (`src/service/bill/bill.py`): insert a bill with an
empty roster and an Owner access row for the creator, in one
transaction.  `now₁`/`now₂` are the two `datetime.now()` calls stamping
`created_time` and `item_updated_time`; `freshId` is the generated
ObjectId of the new bill. -/
def createBill (st : DBState) (uid : Nat) (title : String)
    (now₁ now₂ : Int) (freshId : Nat) : DBState × BillRec :=
  let bill : BillRec :=
    { id := freshId, title := title, members := [], createdBy := uid,
      createdTime := now₁, itemUpdatedTime := now₂ }
  ({ st with
      bills := st.bills ++ [bill],
      accesses := st.accesses ++
        [{ billId := freshId, userId := uid, role := .owner }] },
    bill)

/-- `delete_bill` (`src/service/bill/bill.py`, route `/multi/delete`):
iterate over every Owner-role access row whose bill is in the batch and
fail 403 as soon as one belongs to a user other than the caller;
otherwise delete every access row, bill and item of the batch bills.
Share tokens and member documents are not touched. -/
def deleteBills (st : DBState) (uid : Nat) (idList : List Nat) :
    Except Err DBState :=
  if (st.accesses.filter (fun a =>
        idList.contains a.billId && a.role == Role.owner)).any
      (fun a => a.userId != uid) then
    .error .forbidden
  else
    .ok { st with
      accesses := st.accesses.filter (fun a => !idList.contains a.billId),
      bills := st.bills.filter (fun b => !idList.contains b.id),
      items := st.items.filter (fun i => !idList.contains i.billId) }

/-- An entry of the `access_list` request body of `update_bill_access`
(`src/service/bill/access.py`): a user id and a role. -/
structure AccessEntry where
  userId : Nat
  role : Role
deriving DecidableEq, Repr

/-- `update_bill_access` (`src/service/bill/access.py`): require Owner,
delete every access row of the bill, then insert one row per entry of
`access_list`, all in one transaction. -/
def updateBillAccess (st : DBState) (uid billId : Nat)
    (accessList : List AccessEntry) : Except Err DBState :=
  match checkBillPermission st billId uid [.owner] with
  | .error e => .error e
  | .ok bill =>
    .ok { st with accesses :=
      st.accesses.filter (fun a => a.billId != billId) ++
        accessList.map (fun e =>
          { billId := bill.id, userId := e.userId, role := e.role }) }

/-- `add_bill_member` (`src/service/bill/member.py`): require
Owner-or-Member, insert a `BillMember` document, append a *link* to it on
the bill's roster and save the bill. -/
def addBillMember (st : DBState) (uid billId : Nat) (name : String)
    (linkedUser : Option Nat) (freshId : Nat) :
    Except Err (DBState × MemberRec) :=
  match checkBillPermission st billId uid [.owner, .member] with
  | .error e => .error e
  | .ok bill =>
    let bm : MemberRec := { id := freshId, name := name,
                            linkedUser := linkedUser }
    .ok ({ st with
      billMembers := st.billMembers ++ [bm],
      bills := st.bills.map (fun b =>
        if b.id == bill.id then
          { b with members := b.members ++ [PyVal.vLink freshId] }
        else b) }, bm)

/-- `remove_bill_member` (`src/service/bill/member.py`): require
Owner-or-Member, 404 if the member document is absent, 400 if the
member's id is not among the ids of the bill's roster links, then drop
the roster reference, save the bill and delete the member document.
`BillItem` documents are never consulted or modified. -/
def removeBillMember (st : DBState) (uid billId memberId : Nat) :
    Except Err DBState :=
  match checkBillPermission st billId uid [.owner, .member] with
  | .error e => .error e
  | .ok bill =>
    match st.billMembers.find? (fun m => m.id == memberId) with
    | none => .error .notFound
    | some bm =>
      if !(bill.members.contains (PyVal.vLink bm.id)) then
        .error .badRequest
      else
        .ok { st with
          bills := st.bills.map (fun b =>
            if b.id == bill.id then
              { b with members :=
                  b.members.filter (fun m => m != PyVal.vLink bm.id) }
            else b),
          billMembers := st.billMembers.filter (fun m => m.id != bm.id) }

/-- The request body of `create_bill_item` / `update_bill_item`
(`src/service/bill_item.py`).  `paidBy` is a plain string field
(`paid_by: str`) in both request models. -/
structure ItemParams where
  billId : Nat
  type : String
  typeIcon : String
  description : String
  amount : String
  currency : String
  paidBy : String
  occurredTime : Int
deriving DecidableEq, Repr

/-- `create_bill_item` (`src/service/bill_item.py`): require
Owner-or-Member, then run `if params.paid_by not in bill.members`: a
Python membership test of the `paid_by` *string* against the roster list
(whose entries are `BillMember` links), failing 400; on success insert
the item, stamping `created_time` with the server clock and `paid_by`
with the request string. -/
def createBillItem (st : DBState) (uid : Nat) (p : ItemParams)
    (now : Int) (freshId : Nat) : Except Err (DBState × Nat) :=
  match checkBillPermission st p.billId uid [.owner, .member] with
  | .error e => .error e
  | .ok bill =>
    if !(bill.members.contains (PyVal.vStr p.paidBy)) then
      .error .badRequest
    else
      let item : ItemRec :=
        { id := freshId, billId := bill.id, type := p.type,
          typeIcon := p.typeIcon, description := p.description,
          amount := p.amount, currency := p.currency, createdBy := uid,
          paidBy := PyVal.vStr p.paidBy, createdTime := now,
          occurredTime := p.occurredTime }
      .ok ({ st with items := st.items ++ [item] }, freshId)

/-- `get_bill_item_with_permission` (`src/service/bill_item.py`): check
bill permission, then `BillItem.find_one({_id, bill})`, 404 if absent. -/
def getBillItemWithPermission (st : DBState) (billId itemId uid : Nat)
    (roles : List Role) : Except Err ItemRec :=
  match checkBillPermission st billId uid roles with
  | .error e => .error e
  | .ok _ =>
    match st.items.find? (fun i => i.id == itemId && i.billId == billId) with
    | none => .error .notFound
    | some it => .ok it

/-- `delete_bill_item` (`src/service/bill_item.py`): locate the item with
Owner-or-Member permission and delete that document (by its unique
`_id`). -/
def deleteBillItem (st : DBState) (uid billId itemId : Nat) :
    Except Err DBState :=
  match getBillItemWithPermission st billId itemId uid [.owner, .member] with
  | .error e => .error e
  | .ok it =>
    .ok { st with items := st.items.filter (fun i => i.id != it.id) }

/-- `update_bill_item` (`src/service/bill_item.py`): locate the item with
Owner-or-Member permission, fetch its bill link (the bill is present:
the permission check already loaded it), re-run the same
string-vs-roster `paid_by` membership test, then `$set` the mutable
fields of the item; `created_by`, `paid_by` and `created_time` are not
in the `$set` document. -/
def updateBillItem (st : DBState) (uid : Nat) (p : ItemParams)
    (itemId : Nat) : Except Err DBState :=
  match getBillItemWithPermission st p.billId itemId uid
      [.owner, .member] with
  | .error e => .error e
  | .ok it =>
    match findBill st it.billId with
    | none => .error .notFound
    | some bill =>
      if !(bill.members.contains (PyVal.vStr p.paidBy)) then
        .error .badRequest
      else
        .ok { st with items := st.items.map (fun i =>
          if i.id == it.id then
            { i with type := p.type, typeIcon := p.typeIcon,
                     description := p.description, amount := p.amount,
                     currency := p.currency,
                     occurredTime := p.occurredTime }
          else i) }

/-- The `$match`/`$lookup`/`$unwind` stages of the `list_bills` pipeline
(`src/service/bill/bill.py`): the bills joined to the caller's access
rows, in access-row order, dropping rows whose bill is absent. -/
def userBills (accesses : List AccessRec) (bills : List BillRec)
    (uid : Nat) : List BillRec :=
  (accesses.filter (fun a => a.userId == uid)).filterMap
    (fun a => bills.find? (fun b => b.id == a.billId))

/-- Descending insertion by `item_updated_time` (the `$sort`
`{"bill_doc.item_updated_time": -1}` stage). -/
def insertByItemUpdatedDesc (b : BillRec) : List BillRec → List BillRec
  | [] => [b]
  | c :: cs =>
    if b.itemUpdatedTime ≤ c.itemUpdatedTime then
      c :: insertByItemUpdatedDesc b cs
    else
      b :: c :: cs

/-- Sort a bill list by `item_updated_time` descending. -/
def sortByItemUpdatedDesc : List BillRec → List BillRec
  | [] => []
  | b :: bs => insertByItemUpdatedDesc b (sortByItemUpdatedDesc bs)

/-- `list_bills` (`src/service/bill/bill.py`): the caller's bills sorted
by `item_updated_time` descending, then `$skip`/`$limit`.  Written over
the two collections it reads so that its independence of the other
collections is syntactic. -/
def listBillsAux (accesses : List AccessRec) (bills : List BillRec)
    (uid skip limit : Nat) : List BillRec :=
  ((sortByItemUpdatedDesc (userBills accesses bills uid)).drop skip).take
    limit

/-- `list_bills` applied to a store state. -/
def listBills (st : DBState) (uid skip limit : Nat) : List BillRec :=
  listBillsAux st.accesses st.bills uid skip limit

/-- `consume_share_bill_token` (`src/service/bill/share.py`), reading the
share-token record with the fields the service layer itself stores on it
(see `ShareTokenRec`): 404 if no token matches; 400 if `expires_at` is
set and in the past; 400 if `remaining_uses` is set and ≤ 0; 400 if the
caller already holds *any* access row on the bill; otherwise insert an
access row with the token's role, bind the bound member's linked user to
the caller if the token is member-bound, and if `remaining_uses` is set
decrement and save it — the token document itself is never deleted.
Returns the bill id. -/
def consumeShareBillToken (st : DBState) (uid : Nat) (token : String)
    (now : Int) : Except Err (DBState × Nat) :=
  match st.shareTokens.find? (fun t => t.token == token) with
  | none => .error .notFound
  | some tk =>
    if (match tk.expiresAt with
        | some e => decide (e < now)
        | none => false) then
      .error .badRequest
    else if (match tk.remainingUses with
        | some u => decide (u ≤ 0)
        | none => false) then
      .error .badRequest
    else if (st.accesses.any (fun a =>
        a.billId == tk.billId && a.userId == uid)) then
      .error .badRequest
    else
      let st₁ := { st with accesses := st.accesses ++
        [{ billId := tk.billId, userId := uid, role := tk.accessRole }] }
      let st₂ :=
        match tk.billMember with
        | some mid =>
          { st₁ with billMembers := st₁.billMembers.map (fun m =>
              if m.id == mid then { m with linkedUser := some uid }
              else m) }
        | none => st₁
      let st₃ :=
        match tk.remainingUses with
        | some u =>
          { st₂ with shareTokens := st₂.shareTokens.map (fun t =>
              if t.token == tk.token then
                { t with remainingUses := some (u - 1) }
              else t) }
        | none => st₂
      .ok (st₃, tk.billId)

/-- The field names declared on the persisted `BillShareToken` document
model, `src/db/models.py` lines 107–116: `token`, `bill`, `access_role`,
`created_by`, `created_time` — and nothing else.  Extra keyword
arguments passed to a pydantic model whose config does not set
`extra="allow"` (beanie documents do not) are silently discarded, and
reading an undeclared attribute raises `AttributeError`. -/
def billShareTokenModelFields : List String :=
  ["token", "bill", "access_role", "created_by", "created_time"]

/-- The keyword arguments `share_bill` (`src/service/bill/share.py`,
lines 44–53) passes to the `BillShareToken` constructor when issuing a
token. -/
def shareBillConstructorKwargs : List String :=
  ["token", "bill", "access_role", "created_by", "created_time",
   "expires_at", "remaining_uses", "bill_member"]

/-- The attributes `consume_share_bill_token`
(`src/service/bill/share.py`, lines 79–108) reads on the loaded
`share_token` document. -/
def consumeShareBillTokenFieldsRead : List String :=
  ["expires_at", "remaining_uses", "bill", "bill_member", "access_role"]

/-- `UserSession` document (`src/db/models.py`): unique token value,
expiry, linked user. -/
structure SessionRec where
  value : String
  expiresAt : Int
  userId : Nat
deriving DecidableEq, Repr

/-- The state `parse_user_session` touches: the session collection and
the set of existing users. -/
structure SessionState where
  sessions : List SessionRec
  users : List Nat
deriving DecidableEq, Repr

/-- One day, in the abstract clock's seconds (`timedelta(days=1)`). -/
def daySeconds : Int := 86400

/-- `parse_user_session` (`src/service/user.py`): look the session up by
cookie value; `none` if the cookie or the record is absent; if
`expires_at < now` delete the record and return `none`; otherwise, if
less than one day of life remains, rewrite `expires_at` to now + 30 days
and save; finally return `User.get` of the linked user id.  Returns the
(possibly updated) state together with the resolved identity. -/
def parseUserSession (st : SessionState) (cookie : Option String)
    (now : Int) : SessionState × Option Nat :=
  match cookie with
  | none => (st, none)
  | some v =>
    match st.sessions.find? (fun s => s.value == v) with
    | none => (st, none)
    | some us =>
      if us.expiresAt < now then
        ({ st with sessions :=
            st.sessions.filter (fun s => s.value != us.value) }, none)
      else
        let st' :=
          if us.expiresAt - now < daySeconds then
            { st with sessions := st.sessions.map (fun s =>
                if s.value == us.value then
                  { s with expiresAt := now + 30 * daySeconds }
                else s) }
          else st
        (st', st.users.find? (fun u => u == us.userId))

/-! ## Concrete stores used to instantiate the theorems -/

/-- A bill with no access rows at all (reachable: `update_bill_access`
with an empty `access_list` leaves a bill ownerless, spec §9). -/
def c1Bill : BillRec :=
  { id := 1, title := "t", members := [], createdBy := 3,
    createdTime := 0, itemUpdatedTime := 0 }

/-- Store containing only the ownerless bill `c1Bill`. -/
def c1State : DBState :=
  { bills := [c1Bill], accesses := [], billMembers := [], items := [],
    shareTokens := [] }

/-- Store where user 10 owns bill 1. -/
def c1OwnedState : DBState :=
  { bills := [c1Bill],
    accesses := [{ billId := 1, userId := 10, role := .owner }],
    billMembers := [], items := [], shareTokens := [] }

/-- A share token of bill 1 (no expiry, no use budget, unbound). -/
def c4Token : ShareTokenRec :=
  { token := "tok", billId := 1, accessRole := .member, createdBy := 10,
    createdTime := 0, expiresAt := none, remainingUses := none,
    billMember := none }

/-- A ledger item of bill 1. -/
def c4Item : ItemRec :=
  { id := 7, billId := 1, type := "food", typeIcon := "i",
    description := "d", amount := "12.34", currency := "CNY",
    createdBy := 10, paidBy := .vStr "Bob", createdTime := 0,
    occurredTime := 0 }

/-- Store where user 10 owns bill 1, which carries an item and a share
token. -/
def c4State : DBState :=
  { bills := [c1Bill],
    accesses := [{ billId := 1, userId := 10, role := .owner }],
    billMembers := [], items := [c4Item], shareTokens := [c4Token] }

/-- Store where user 10 owns bill 1 whose roster holds (a link to)
member 5, named "Bob" — exactly what `create_bill` followed by
`add_bill_member` produces. -/
def c3State : DBState :=
  { bills := [{ id := 1, title := "t", members := [.vLink 5],
                createdBy := 10, createdTime := 0, itemUpdatedTime := 0 }],
    accesses := [{ billId := 1, userId := 10, role := .owner }],
    billMembers := [{ id := 5, name := "Bob", linkedUser := none }],
    items := [], shareTokens := [] }

/-- The item-creation request of the spec's §8 scenario: `paid_by` names
the rostered member "Bob". -/
def c3Params : ItemParams :=
  { billId := 1, type := "food", typeIcon := "i", description := "d",
    amount := "12.34", currency := "CNY", paidBy := "Bob",
    occurredTime := 5 }

/-- An unexpired token for bill 1 with `remaining_uses = 1`. -/
def c2Token : ShareTokenRec :=
  { token := "tk2", billId := 1, accessRole := .member, createdBy := 10,
    createdTime := 0, expiresAt := none, remainingUses := some 1,
    billMember := none }

/-- Store where user 10 owns bill 1 and `c2Token` is outstanding; users
20 and 30 hold no access on bill 1. -/
def c2State : DBState :=
  { bills := [c1Bill],
    accesses := [{ billId := 1, userId := 10, role := .owner }],
    billMembers := [], items := [], shareTokens := [c2Token] }

/-- `c2State` after user 20 redeems `c2Token`: a Member access row for
user 20 was inserted and the token is retained with
`remaining_uses = 0`. -/
def c2StateAfter : DBState :=
  { bills := [c1Bill],
    accesses := [{ billId := 1, userId := 10, role := .owner },
                 { billId := 1, userId := 20, role := .member }],
    billMembers := [], items := [],
    shareTokens := [{ c2Token with remainingUses := some 0 }] }

/-- A store whose only share token (for bill 1) expired at time 5, with
arbitrary granted role, use budget and member binding. -/
def c7State (r : Role) (uses : Option Int) (bm : Option Nat) : DBState :=
  { bills := [c1Bill], accesses := [], billMembers := [], items := [],
    shareTokens := [{ token := "tk7", billId := 1, accessRole := r,
                      createdBy := 3, createdTime := 0,
                      expiresAt := some 5, remainingUses := uses,
                      billMember := bm }] }

/-- A session store with one session "v" for user 4, expiring at
100000. -/
def c8State : SessionState :=
  { sessions := [{ value := "v", expiresAt := 100000, userId := 4 }],
    users := [4] }

/-- Store for the member-removal scenario: user 10 owns bill 1 whose
roster links member 5 ("Bob"), and an existing item of bill 1 names
member 5 as payer. -/
def c10State : DBState :=
  { bills := [{ id := 1, title := "t", members := [.vLink 5],
                createdBy := 10, createdTime := 0, itemUpdatedTime := 0 }],
    accesses := [{ billId := 1, userId := 10, role := .owner }],
    billMembers := [{ id := 5, name := "Bob", linkedUser := none }],
    items := [{ c4Item with paidBy := .vLink 5 }], shareTokens := [] }

/-! ## Helper lemmas -/

/-- A successful permission check returns the bill with the requested
id. -/
theorem checkBillPermission_ok_id {st : DBState} {billId uid : Nat}
    {roles : List Role} {bill : BillRec}
    (h : checkBillPermission st billId uid roles = .ok bill) :
    bill.id = billId := by
  unfold checkBillPermission at h
  cases hfb : findBill st billId with
  | none => rw [hfb] at h; exact absurd h (by simp)
  | some b =>
    rw [hfb] at h
    cases hfa : findAccess st billId uid roles with
    | none => rw [hfa] at h; exact absurd h (by simp)
    | some a =>
      rw [hfa] at h
      cases h
      have := List.find?_some hfb
      simpa using this

/-! ## C1 — batch-delete authorization -/

/-- C1 (counterexample): bill 1 exists, the caller (user 10) holds no
Owner access row on it — yet `delete_bill` of the batch `[1]` succeeds
and deletes the bill instead of failing Forbidden and leaving the batch
untouched, because the authorization loop only inspects the Owner rows
that exist, and an ownerless bill contributes none. -/
theorem delete_bill_without_owner_row_succeeds :
    findBill c1State 1 = some c1Bill ∧
    findAccess c1State 1 10 [Role.owner] = none ∧
    deleteBills c1State 10 [1] =
      .ok { bills := [], accesses := [], billMembers := [], items := [],
            shareTokens := [] } :=
  ⟨rfl, rfl, rfl⟩

/-- C1 (amended): the batch delete fails Forbidden exactly when some
*existing* Owner-role access row of a batch bill belongs to a user other
than the caller (leaving every record untouched, the transaction being
aborted); otherwise — in particular for batch bills having no Owner
access row at all — it deletes every access row, bill and ledger item of
the batch bills. -/
theorem delete_bill_authorization_amended (st : DBState) (uid : Nat)
    (ids : List Nat) :
    (deleteBills st uid ids = .error .forbidden ↔
      ∃ a ∈ st.accesses, a.billId ∈ ids ∧ a.role = Role.owner ∧
        a.userId ≠ uid) ∧
    ((∀ a ∈ st.accesses, a.billId ∈ ids → a.role = Role.owner →
        a.userId = uid) →
      deleteBills st uid ids =
        .ok { st with
          accesses := st.accesses.filter (fun a => !ids.contains a.billId),
          bills := st.bills.filter (fun b => !ids.contains b.id),
          items := st.items.filter (fun i => !ids.contains i.billId) }) := by
  have hcond :
      ((st.accesses.filter (fun a =>
          ids.contains a.billId && a.role == Role.owner)).any
        (fun a => a.userId != uid)) = true ↔
      ∃ a ∈ st.accesses, a.billId ∈ ids ∧ a.role = Role.owner ∧
        a.userId ≠ uid := by
    simp [List.any_eq_true, List.mem_filter, and_assoc]
  by_cases hp : ∃ a ∈ st.accesses, a.billId ∈ ids ∧ a.role = Role.owner ∧
      a.userId ≠ uid
  · have hc : ((st.accesses.filter (fun a =>
          ids.contains a.billId && a.role == Role.owner)).any
        (fun a => a.userId != uid)) = true := hcond.mpr hp
    have hres : deleteBills st uid ids = .error .forbidden := by
      unfold deleteBills
      rw [hc]
      simp
    refine ⟨⟨fun _ => hp, fun _ => hres⟩, fun h => ?_⟩
    rcases hp with ⟨a, ha, hin, hrole, hne⟩
    exact absurd (h a ha hin hrole) hne
  · have hc : ((st.accesses.filter (fun a =>
          ids.contains a.billId && a.role == Role.owner)).any
        (fun a => a.userId != uid)) = false := by
      cases hb : ((st.accesses.filter (fun a =>
          ids.contains a.billId && a.role == Role.owner)).any
        (fun a => a.userId != uid)) with
      | false => rfl
      | true => exact absurd (hcond.mp hb) hp
    have hres : deleteBills st uid ids =
        .ok { st with
          accesses := st.accesses.filter (fun a => !ids.contains a.billId),
          bills := st.bills.filter (fun b => !ids.contains b.id),
          items := st.items.filter (fun i => !ids.contains i.billId) } := by
      unfold deleteBills
      rw [hc]
      simp
    refine ⟨⟨fun habs => ?_, fun hpp => absurd hpp hp⟩, fun _ => hres⟩
    rw [hres] at habs
    exact absurd habs (by simp)

/-- Witness for the amended C1: with the caller owning bill 1 the batch
delete goes through and removes the bill and its access row. -/
theorem delete_bill_authorization_amended_witness :
    deleteBills c1OwnedState 10 [1] =
      .ok { bills := [], accesses := [], billMembers := [], items := [],
            shareTokens := [] } :=
  (delete_bill_authorization_amended c1OwnedState 10 [1]).2 (by decide)

/-! ## C4 — cascade of the bill delete -/

/-- C4 (counterexample): user 10 owns bill 1, which has one access row,
one ledger item and one share token.  Deleting the bill removes the
access row, the bill and the item, but the share token of bill 1
survives — the delete issues no `BillShareToken` deletion, contradicting
the claim that ShareTokens are deleted together with the bill. -/
theorem delete_bill_leaves_share_tokens :
    deleteBills c4State 10 [1] =
      .ok { bills := [], accesses := [], billMembers := [], items := [],
            shareTokens := [c4Token] } ∧
    c4Token.billId = 1 :=
  ⟨rfl, rfl⟩

/-- C4 (amended): a successful batch delete removes every Access row,
Bill record and LedgerItem of the batch bills, and leaves the
ShareToken and Member collections untouched. -/
theorem delete_bill_cascade_amended (st : DBState) (uid : Nat)
    (ids : List Nat) (st' : DBState)
    (h : deleteBills st uid ids = .ok st') :
    st'.accesses = st.accesses.filter (fun a => !ids.contains a.billId) ∧
    st'.bills = st.bills.filter (fun b => !ids.contains b.id) ∧
    st'.items = st.items.filter (fun i => !ids.contains i.billId) ∧
    st'.shareTokens = st.shareTokens ∧
    st'.billMembers = st.billMembers := by
  unfold deleteBills at h
  by_cases hc : ((st.accesses.filter (fun a =>
      ids.contains a.billId && a.role == Role.owner)).any
        (fun a => a.userId != uid)) = true
  · rw [hc] at h
    exact absurd h (by simp)
  · rw [Bool.not_eq_true] at hc
    rw [hc] at h
    simp only [Bool.false_eq_true, if_false, Except.ok.injEq] at h
    subst h
    exact ⟨rfl, rfl, rfl, rfl, rfl⟩

/-- Witness for the amended C4 at the concrete store `c4State`. -/
theorem delete_bill_cascade_amended_witness :
    (deleteBills c4State 10 [1] =
      .ok { bills := [], accesses := [], billMembers := [], items := [],
            shareTokens := [c4Token] }) ∧
    ([] : List AccessRec) =
        c4State.accesses.filter (fun a => !(([1] : List Nat).contains a.billId)) ∧
      ([] : List BillRec) =
        c4State.bills.filter (fun b => !(([1] : List Nat).contains b.id)) ∧
      ([] : List ItemRec) =
        c4State.items.filter (fun i => !(([1] : List Nat).contains i.billId)) ∧
      [c4Token] = c4State.shareTokens ∧
      ([] : List MemberRec) = c4State.billMembers :=
  ⟨rfl, delete_bill_cascade_amended c4State 10 [1]
    { bills := [], accesses := [], billMembers := [], items := [],
      shareTokens := [c4Token] } rfl⟩

/-! ## C5 — update_access is a destructive full replace -/

/-- Rows kept by "billId ≠ b" never survive a "billId = b" filter. -/
theorem filter_ne_filter_eq_nil (l : List AccessRec) (b : Nat) :
    (l.filter (fun a => a.billId != b)).filter (fun a => a.billId == b) =
      [] := by
  rw [List.filter_filter, List.filter_eq_nil_iff]
  intro a _
  simp

/-- Freshly inserted rows of bill `b` all survive a "billId = b"
filter. -/
theorem filter_eq_map_self (es : List AccessEntry) (b : Nat) :
    ((es.map (fun e =>
        ({ billId := b, userId := e.userId, role := e.role } : AccessRec))).filter
      (fun a => a.billId == b)) =
      es.map (fun e =>
        ({ billId := b, userId := e.userId, role := e.role } : AccessRec)) := by
  apply List.filter_eq_self.mpr
  intro a ha
  rcases List.mem_map.mp ha with ⟨e, _, rfl⟩
  simp

/-- C5: for an Owner caller, `update_bill_access` replaces the entire
access roster of the bill: afterwards the access rows of the bill are
exactly the supplied list (row `i` being (bill, access_list[i].user,
access_list[i].role)), the rows of every other bill are untouched, and
nothing constrains the supplied list to retain the caller — the caller
can thereby lose its own Owner access (see the witness). -/
theorem update_access_full_replace (st : DBState) (uid billId : Nat)
    (accessList : List AccessEntry) (bill : BillRec)
    (h : checkBillPermission st billId uid [Role.owner] = .ok bill) :
    updateBillAccess st uid billId accessList =
      .ok { st with accesses :=
        st.accesses.filter (fun a => a.billId != billId) ++
          accessList.map (fun e =>
            { billId := billId, userId := e.userId, role := e.role }) } ∧
    ((st.accesses.filter (fun a => a.billId != billId) ++
        accessList.map (fun e =>
          ({ billId := billId, userId := e.userId,
             role := e.role } : AccessRec))).filter
      (fun a => a.billId == billId)) =
      accessList.map (fun e =>
        { billId := billId, userId := e.userId, role := e.role }) ∧
    ((st.accesses.filter (fun a => a.billId != billId) ++
        accessList.map (fun e =>
          ({ billId := billId, userId := e.userId,
             role := e.role } : AccessRec))).filter
      (fun a => a.billId != billId)) =
      st.accesses.filter (fun a => a.billId != billId) := by
  have hid : bill.id = billId := checkBillPermission_ok_id h
  refine ⟨?_, ?_, ?_⟩
  · have hres : updateBillAccess st uid billId accessList =
        .ok { st with accesses :=
          st.accesses.filter (fun a => a.billId != billId) ++
            accessList.map (fun e =>
              { billId := bill.id, userId := e.userId, role := e.role }) } := by
      unfold updateBillAccess
      rw [h]
    rw [hid] at hres
    exact hres
  · rw [List.filter_append, filter_ne_filter_eq_nil,
        filter_eq_map_self, List.nil_append]
  · rw [List.filter_append]
    have h1 : (st.accesses.filter (fun a => a.billId != billId)).filter
        (fun a => a.billId != billId) =
        st.accesses.filter (fun a => a.billId != billId) := by
      rw [List.filter_filter]
      apply List.filter_congr
      intro a _
      simp
    have h2 : ((accessList.map (fun e =>
        ({ billId := billId, userId := e.userId,
           role := e.role } : AccessRec))).filter
        (fun a => a.billId != billId)) = [] := by
      rw [List.filter_eq_nil_iff]
      intro a ha
      rcases List.mem_map.mp ha with ⟨e, _, rfl⟩
      simp
    rw [h1, h2, List.append_nil]

/-- Witness for C5: user 10, sole Owner of bill 1, replaces the roster
with `[(user 20, Member)]` and thereby loses all access itself. -/
theorem update_access_full_replace_witness :
    updateBillAccess c1OwnedState 10 1 [{ userId := 20, role := .member }] =
      .ok { bills := [c1Bill],
            accesses := [{ billId := 1, userId := 20, role := .member }],
            billMembers := [], items := [], shareTokens := [] } ∧
    findAccess
      { bills := [c1Bill],
        accesses := [{ billId := 1, userId := 20, role := .member }],
        billMembers := [], items := [], shareTokens := [] }
      1 10 [Role.owner, Role.member, Role.observer] = none :=
  ⟨(update_access_full_replace c1OwnedState 10 1
      [{ userId := 20, role := .member }] c1Bill rfl).1, rfl⟩

/-! ## C6 — create_bill post-condition -/

/-- C6: `create_bill` appends a bill with an empty roster, and — as long
as no access row already mentions the fresh bill id — the access rows of
the new bill afterwards are exactly one row: (new bill, creator,
Owner). -/
theorem create_bill_single_owner_access (st : DBState) (uid : Nat)
    (title : String) (now₁ now₂ : Int) (freshId : Nat)
    (ha : ∀ a ∈ st.accesses, a.billId ≠ freshId) :
    (createBill st uid title now₁ now₂ freshId).1.bills =
      st.bills ++ [(createBill st uid title now₁ now₂ freshId).2] ∧
    (createBill st uid title now₁ now₂ freshId).2.members = [] ∧
    (createBill st uid title now₁ now₂ freshId).2.id = freshId ∧
    (createBill st uid title now₁ now₂ freshId).1.accesses.filter
        (fun a => a.billId == freshId) =
      [{ billId := freshId, userId := uid, role := Role.owner }] := by
  refine ⟨rfl, rfl, rfl, ?_⟩
  show ((st.accesses ++
      [({ billId := freshId, userId := uid,
          role := Role.owner } : AccessRec)]).filter
    (fun a => a.billId == freshId)) = _
  rw [List.filter_append]
  have h1 : st.accesses.filter (fun a => a.billId == freshId) = [] := by
    rw [List.filter_eq_nil_iff]
    intro a ha'
    simp [ha a ha']
  rw [h1, List.nil_append]
  simp

/-- Witness for C6 on the empty store. -/
theorem create_bill_single_owner_access_witness :
    (createBill { bills := [], accesses := [], billMembers := [],
                  items := [], shareTokens := [] }
        10 "Trip" 0 0 1).1.accesses.filter (fun a => a.billId == 1) =
      [{ billId := 1, userId := 10, role := Role.owner }] :=
  (create_bill_single_owner_access
    { bills := [], accesses := [], billMembers := [], items := [],
      shareTokens := [] } 10 "Trip" 0 0 1 (by simp)).2.2.2

/-! ## C3 — the paid_by roster validation of create_bill_item -/

/-- C3 (code bug): in `c3State` user 10 owns bill 1 and member 5, named
"Bob", is on the bill's roster — the spec's §8 scenario, where creating
an item with `paid_by = "Bob"` must succeed.  However the check
`params.paid_by not in bill.members` compares the `paid_by` *string*
with the roster's `BillMember` *links*, which are never equal in Python,
so `create_bill_item` answers 400 BadRequest — and inserts nothing — for
*every* `paid_by` string, rostered member names included. -/
theorem create_item_rejects_every_paid_by (name : String) (now : Int)
    (freshId : Nat) :
    createBillItem c3State 10 { c3Params with paidBy := name } now
        freshId = .error .badRequest := by
  have hperm : checkBillPermission c3State 1 10 [Role.owner, Role.member] =
      .ok { id := 1, title := "t", members := [.vLink 5], createdBy := 10,
            createdTime := 0, itemUpdatedTime := 0 } := rfl
  unfold createBillItem
  rw [show ({ c3Params with paidBy := name } : ItemParams).billId = 1
        from rfl] at *
  rw [hperm]
  have hmem : (([PyVal.vLink 5] : List PyVal).contains
      (PyVal.vStr ({ c3Params with paidBy := name } : ItemParams).paidBy)) =
      false := by
    simp [List.contains]
  simp [hmem]

/-! ## C2 and C7 — share-token redemption -/

/-- C2 (code bug): the redemption *logic* of
`consume_share_bill_token` satisfies the claim — redeeming a token with
`remaining_uses = 1` succeeds once, inserts the granted access row,
persists `remaining_uses = 0` while retaining the token record, and any
later attempt (other user or same user) fails 400 BadRequest.  But the
persisted `BillShareToken` model lacks the `remaining_uses` field the
issuance passes and the redemption reads (pydantic silently drops the
unknown constructor kwarg and raises `AttributeError` on read), so the
stored token carries no use budget at all and the redemption route
cannot run as specified. -/
theorem share_token_remaining_uses_bug :
    ("remaining_uses" ∈ shareBillConstructorKwargs ∧
     "remaining_uses" ∈ consumeShareBillTokenFieldsRead ∧
     "remaining_uses" ∉ billShareTokenModelFields) ∧
    consumeShareBillToken c2State 20 "tk2" 50 = .ok (c2StateAfter, 1) ∧
    c2StateAfter.shareTokens =
      [{ c2Token with remainingUses := some 0 }] ∧
    consumeShareBillToken c2StateAfter 30 "tk2" 60 = .error .badRequest ∧
    consumeShareBillToken c2StateAfter 20 "tk2" 60 = .error .badRequest :=
  ⟨by decide, rfl, rfl, rfl, rfl⟩

/-- C7 (code bug): redeeming a token whose `expires_at` (time 5) lies in
the past (now = 10) fails 400 BadRequest before any access row is
inserted (the transaction aborts), for every granted role, use budget,
bound member and redeeming user — per the redemption logic of
`consume_share_bill_token`.  As with C2, the persisted model lacks the
`expires_at` field that `share_bill` passes and the redemption reads, so
on the stored schema the expiry can never be enforced as specified. -/
theorem share_token_expiry_bug :
    ("expires_at" ∈ shareBillConstructorKwargs ∧
     "expires_at" ∈ consumeShareBillTokenFieldsRead ∧
     "expires_at" ∉ billShareTokenModelFields) ∧
    ∀ (r : Role) (uses : Option Int) (bm : Option Nat) (uid : Nat),
      consumeShareBillToken (c7State r uses bm) uid "tk7" 10 =
        .error .badRequest :=
  ⟨by decide, fun _ _ _ _ => rfl⟩

/-! ## C8 — session resolution with sliding expiration -/

/-- `User.get x` over a store containing `x` returns `x`. -/
theorem find?_beq_self {l : List Nat} {x : Nat} (h : x ∈ l) :
    l.find? (fun u => u == x) = some x := by
  induction l with
  | nil => cases h
  | cons a as ih =>
    by_cases hax : a = x
    · subst hax
      simp [List.find?]
    · rw [List.find?]
      rw [show ((a == x)) = false by simp [hax]]
      cases h with
      | head => exact absurd rfl hax
      | tail _ h' => exact ih h' 

/-- C8: `parse_user_session` — an absent session resolves to no
identity; a session with `expires_at < now` is deleted and resolves to
no identity; an unexpired session resolves to `User.get` of the linked
user (the linked user, whenever that user exists), and when less than
one day of life remains its expiry is rewritten to now + 30 days;
otherwise the store is untouched. -/
theorem parse_user_session_behaviour (st : SessionState) (v : String)
    (now : Int) :
    (st.sessions.find? (fun s => s.value == v) = none →
      parseUserSession st (some v) now = (st, none)) ∧
    (∀ us, st.sessions.find? (fun s => s.value == v) = some us →
      (us.expiresAt < now →
        parseUserSession st (some v) now =
          ({ st with sessions :=
              st.sessions.filter (fun s => s.value != us.value) }, none)) ∧
      (¬ us.expiresAt < now →
        ((us.userId ∈ st.users →
            (parseUserSession st (some v) now).2 = some us.userId) ∧
         (us.expiresAt - now < daySeconds →
           parseUserSession st (some v) now =
             ({ st with sessions := st.sessions.map (fun s =>
                 if s.value == us.value then
                   { s with expiresAt := now + 30 * daySeconds }
                 else s) },
              st.users.find? (fun u => u == us.userId))) ∧
         (¬ us.expiresAt - now < daySeconds →
           parseUserSession st (some v) now =
             (st, st.users.find? (fun u => u == us.userId)))))) := by
  constructor
  · intro h
    simp only [parseUserSession]
    rw [h]
  · intro us hus
    constructor
    · intro hexp
      simp only [parseUserSession]
      rw [hus]
      simp only [if_pos hexp]
    · intro hnexp
      have hsnd : (parseUserSession st (some v) now).2 =
          st.users.find? (fun u => u == us.userId) := by
        simp only [parseUserSession]
        rw [hus]
        simp only [if_neg hnexp]
      refine ⟨?_, ?_, ?_⟩
      · intro hmem
        rw [hsnd, find?_beq_self hmem]
      · intro hday
        simp only [parseUserSession]
        rw [hus]
        simp only [if_neg hnexp, if_pos hday]
      · intro hday
        simp only [parseUserSession]
        rw [hus]
        simp only [if_neg hnexp, if_neg hday]

/-- Witness for C8 at the concrete store `c8State`: resolving session
"v" at now = 90000 (10000 seconds of life left, under one day) returns
user 4 and rewrites the expiry to 90000 + 30 days = 2682000; resolving
at now = 100001 deletes the record and returns no identity. -/
theorem parse_user_session_behaviour_witness :
    parseUserSession c8State (some "v") 90000 =
      ({ sessions := [{ value := "v", expiresAt := 2682000, userId := 4 }],
         users := [4] }, some 4) ∧
    parseUserSession c8State (some "v") 100001 =
      ({ sessions := [], users := [4] }, none) := by
  constructor
  · have h := ((parse_user_session_behaviour c8State "v" 90000).2
      { value := "v", expiresAt := 100000, userId := 4 } rfl).2
      (by decide)
    have h2 := h.2.1 (by decide)
    exact h2
  · have h := ((parse_user_session_behaviour c8State "v" 100001).2
      { value := "v", expiresAt := 100000, userId := 4 } rfl).1
      (by decide)
    exact h

/-! ## C9 — ledger-item operations never touch the Bill record -/

/-- C9: `create_bill_item`, `update_bill_item` and `delete_bill_item`
leave the Bill collection (and the Access collection) exactly as they
were — in particular every bill's `item_updated_time` keeps the value
stamped by `create_bill` forever — so `list_bills`, which orders by
`item_updated_time` descending, returns the same list before and after
any ledger-item operation: the ordering reflects bill creation stamps,
never subsequent item activity. -/
theorem item_ops_never_touch_bills (st : DBState) (uid : Nat)
    (p : ItemParams) (now : Int) (freshId : Nat) :
    (∀ st' n, createBillItem st uid p now freshId = .ok (st', n) →
      st'.bills = st.bills ∧ st'.accesses = st.accesses ∧
      ∀ u s l, listBills st' u s l = listBills st u s l) ∧
    (∀ itemId st', updateBillItem st uid p itemId = .ok st' →
      st'.bills = st.bills ∧ st'.accesses = st.accesses ∧
      ∀ u s l, listBills st' u s l = listBills st u s l) ∧
    (∀ billId itemId st', deleteBillItem st uid billId itemId = .ok st' →
      st'.bills = st.bills ∧ st'.accesses = st.accesses ∧
      ∀ u s l, listBills st' u s l = listBills st u s l) := by
  have key : ∀ st' : DBState, st'.bills = st.bills →
      st'.accesses = st.accesses →
      ∀ u s l, listBills st' u s l = listBills st u s l := by
    intro st' hb ha u s l
    unfold listBills
    rw [hb, ha]
  refine ⟨?_, ?_, ?_⟩
  · intro st' n h
    unfold createBillItem at h
    split at h
    · exact absurd h (by simp)
    · split at h
      · exact absurd h (by simp)
      · rw [Except.ok.injEq, Prod.mk.injEq] at h
        obtain ⟨h1, _⟩ := h
        rw [← h1]
        exact ⟨rfl, rfl, key _ rfl rfl⟩
  · intro itemId st' h
    unfold updateBillItem at h
    split at h
    · exact absurd h (by simp)
    · split at h
      · exact absurd h (by simp)
      · split at h
        · exact absurd h (by simp)
        · rw [Except.ok.injEq] at h
          rw [← h]
          exact ⟨rfl, rfl, key _ rfl rfl⟩
  · intro billId itemId st' h
    unfold deleteBillItem at h
    split at h
    · exact absurd h (by simp)
    · rw [Except.ok.injEq] at h
      rw [← h]
      exact ⟨rfl, rfl, key _ rfl rfl⟩

/-- Witness for C9: deleting item 7 of bill 1 succeeds on `c4State` and
leaves the bill list (and the bill's `item_updated_time`) unchanged;
deleting is the one ledger-item operation that can succeed end-to-end
(see C3 for creation).  The conclusions of `item_ops_never_touch_bills`
are discharged at this concrete store. -/
theorem item_ops_never_touch_bills_witness :
    (deleteBillItem c4State 10 1 7 =
      .ok { bills := [c1Bill],
            accesses := [{ billId := 1, userId := 10, role := .owner }],
            billMembers := [], items := [], shareTokens := [c4Token] }) ∧
    ({ bills := [c1Bill],
       accesses := [{ billId := 1, userId := 10, role := .owner }],
       billMembers := [], items := [],
       shareTokens := [c4Token] } : DBState).bills = c4State.bills ∧
    listBills { bills := [c1Bill],
                accesses := [{ billId := 1, userId := 10, role := .owner }],
                billMembers := [], items := [], shareTokens := [c4Token] }
        20 0 16 =
      listBills c4State 20 0 16 := by
  have h := (item_ops_never_touch_bills c4State 10 c3Params 0 99).2.2 1 7
    { bills := [c1Bill],
      accesses := [{ billId := 1, userId := 10, role := .owner }],
      billMembers := [], items := [], shareTokens := [c4Token] } rfl
  exact ⟨rfl, h.1, h.2.2 20 0 16⟩

/-! ## C10 — remove_member ignores ledger items -/

/-- C10: `remove_bill_member` never consults the BillItem collection:
for a caller with Owner-or-Member access, a member document that exists
and is linked on the bill's roster is removed (roster reference dropped,
member document deleted) even while some existing item still names that
member as payer — and every BillItem record, the dangling `paid_by`
reference included, is left exactly as it was. -/
theorem remove_member_ignores_items (st : DBState)
    (uid billId memberId : Nat) (bill : BillRec) (bm : MemberRec)
    (hperm : checkBillPermission st billId uid [Role.owner, Role.member] =
      .ok bill)
    (hfind : st.billMembers.find? (fun m => m.id == memberId) = some bm)
    (hroster : bill.members.contains (PyVal.vLink bm.id) = true)
    (href : ∃ it ∈ st.items, it.paidBy = PyVal.vLink bm.id) :
    removeBillMember st uid billId memberId =
      .ok { st with
        bills := st.bills.map (fun b =>
          if b.id == bill.id then
            { b with members :=
                b.members.filter (fun m => m != PyVal.vLink bm.id) }
          else b),
        billMembers := st.billMembers.filter (fun m => m.id != bm.id) } ∧
    ∀ st', removeBillMember st uid billId memberId = .ok st' →
      st'.items = st.items := by
  have hres : removeBillMember st uid billId memberId =
      .ok { st with
        bills := st.bills.map (fun b =>
          if b.id == bill.id then
            { b with members :=
                b.members.filter (fun m => m != PyVal.vLink bm.id) }
          else b),
        billMembers := st.billMembers.filter (fun m => m.id != bm.id) } := by
    unfold removeBillMember
    rw [hperm, hfind]
    simp [hroster]
    exact List.mem_of_elem_eq_true hroster
  refine ⟨hres, ?_⟩
  intro st' h
  rw [hres, Except.ok.injEq] at h
  rw [← h]

/-- Witness for C10 at `c10State`: member 5 ("Bob") is on bill 1's
roster and item 7 names it as payer; removal succeeds, deletes the
member document, drops the roster link, and the item — dangling
`paid_by` and all — is untouched. -/
theorem remove_member_ignores_items_witness :
    removeBillMember c10State 10 1 5 =
      .ok { bills := [{ id := 1, title := "t", members := [],
                        createdBy := 10, createdTime := 0,
                        itemUpdatedTime := 0 }],
            accesses := [{ billId := 1, userId := 10, role := .owner }],
            billMembers := [],
            items := [{ c4Item with paidBy := .vLink 5 }],
            shareTokens := [] } ∧
    (removeBillMember c10State 10 1 5).toOption.map DBState.items =
      some c10State.items := by
  have h := remove_member_ignores_items c10State 10 1 5
    { id := 1, title := "t", members := [.vLink 5], createdBy := 10,
      createdTime := 0, itemUpdatedTime := 0 }
    { id := 5, name := "Bob", linkedUser := none }
    rfl rfl rfl ⟨{ c4Item with paidBy := .vLink 5 }, by simp [c10State], rfl⟩
  refine ⟨h.1, ?_⟩
  rw [h.1]
  rfl

end SpendWhat
